import Mathlib

/-!
# Verification of the trip-planner client's synchronization and UI state logic

Shallow embedding of the state-bearing logic of the repository's React/Firebase
trip-planning client (`GroupChat`, `AvailabilityHeatmap`, `ProfileSelector`,
`App`).  The remote realtime store is modelled as nested keyed maps
(association lists keyed by `String`); store snapshots delivered to `onValue`
subscriptions are modelled as the key-ordered entry list of the subtree
(Firebase materializes children in ascending key order, and `Object.entries`
preserves that order for non-index string keys such as push ids), with `none`
standing for a `null` snapshot (absent/empty subtree).  Writes (`push`,
`update`, `remove`) are reified as explicit write values whose effect on the
store — and hence, via the subscription echo, on the local cache — is given by
apply functions.
-/

namespace Matutuloy

/-! ## Keyed maps (JS objects / Firebase subtrees as association lists) -/

/-- Lookup of `m[k]` in a keyed map: the value at the first entry whose key is
`k`, or `none` (JS `undefined`) when the key is absent. -/
def lookupKey (l : List (String × α)) (k : String) : Option α :=
  match l with
  | [] => none
  | p :: rest => if p.1 = k then some p.2 else lookupKey rest k

/-- Effect of `remove(ref(.../k))`: delete key `k` from the keyed map. -/
def removeKey (l : List (String × α)) (k : String) : List (String × α) :=
  l.filter (fun p => p.1 ≠ k)

/-- Effect of `update(ref(...), {[k]: v})` on the keyed map: overwrite the
value at key `k` if present, otherwise add the entry. -/
def setKey (l : List (String × α)) (k : String) (v : α) : List (String × α) :=
  if (lookupKey l k).isSome then
    l.map (fun p => if p.1 = k then (k, v) else p)
  else
    l ++ [(k, v)]

/-- Lexicographic ordering on character lists, used to state the ascending
store-key order of snapshot entries (Firebase push ids are chronologically
monotonic strings compared lexicographically). -/
def charListLt : List Char → List Char → Bool
  | [], [] => false
  | [], _ :: _ => true
  | _ :: _, [] => false
  | a :: as, b :: bs => if a < b then true else if b < a then false else charListLt as bs

/-- Ascending store-key order: lexicographic comparison of the key strings. -/
def storeKeyLt (a b : String) : Bool := charListLt a.data b.data

/-! ## JS string primitives used by the handlers

The handlers rely on `String.prototype.trim`, `value.substring(value.length-1)`
and `isNaN(Number(value))`.  They are modelled here on codepoint lists, with
`Number` coercion restricted to the forms reachable in this code base (single
characters and short all-digit strings): a string coerces to a number (is not
NaN) iff after trimming ASCII whitespace it is empty (`Number('') = 0`,
`Number(' ') = 0`) or consists solely of decimal digits. -/

/-- ASCII whitespace, as trimmed by JS `trim()` on the inputs arising here. -/
def jsWhitespaceChar (c : Char) : Bool :=
  c == ' ' || c == '\t' || c == '\n' || c == '\r' || c == Char.ofNat 11 || c == Char.ofNat 12

/-- JS `s.trim()` on the codepoint list: strip leading and trailing whitespace. -/
def jsTrimData (cs : List Char) : List Char :=
  ((cs.dropWhile jsWhitespaceChar).reverse.dropWhile jsWhitespaceChar).reverse

/-- JS `isNaN(Number(s))`: `false` for whitespace-only strings (they coerce to
`0`) and for digit strings; `true` for anything else reachable here (letters,
punctuation, sign characters on their own). -/
def jsNumberIsNaN (s : String) : Bool :=
  let t := jsTrimData s.data
  !(t.isEmpty || t.all Char.isDigit)

/-- JS `value.substring(value.length - 1)`: the last codepoint of the string
(empty input yields the empty string, matching `substring`'s clamping). -/
def jsLastCodepoint (value : String) : String :=
  String.mk (value.data.drop (value.data.length - 1))

end Matutuloy

namespace Matutuloy.GroupChat

/-! ## `GroupChat` data model and handlers (src/components/GroupChat.tsx) -/

/-- The frozen `replyTo` snapshot stored inside a message. -/
structure ReplyTo where
  id : String
  sender : String
  text : String
deriving Repr, DecidableEq

/-- The stored value at `messages/{id}` (the message without its key).
`isPinned` and `replyTo` are optional fields; `reactions` is an optional
keyed map from user name to emoji. -/
structure MessageVal where
  sender : String
  text : String
  timestamp : Nat
  isPinned : Option Bool := none
  replyTo : Option ReplyTo := none
  reactions : Option (List (String × String)) := none
deriving Repr, DecidableEq

/-- A message as held in the local `messages` state: store key plus value. -/
structure Message where
  id : String
  sender : String
  text : String
  timestamp : Nat
  isPinned : Option Bool := none
  replyTo : Option ReplyTo := none
  reactions : Option (List (String × String)) := none
deriving Repr, DecidableEq

/-- `{ id: key, ...value }` — the transform applied to each snapshot entry. -/
def mkMessage (key : String) (v : MessageVal) : Message :=
  { id := key, sender := v.sender, text := v.text, timestamp := v.timestamp,
    isPinned := v.isPinned, replyTo := v.replyTo, reactions := v.reactions }

/-- The `onValue` messages subscription handler: `snapshot.val()` is `none`
for an absent/empty subtree (`null` in JS), otherwise the key-ordered entry
list of the `messages` subtree.  The handler replaces the local message list
wholesale with `Object.entries(data).map(([key, value]) => ({id: key, ...value}))`. -/
def messagesOnValue (snapshot : Option (List (String × MessageVal))) : List Message :=
  match snapshot with
  | none => []
  | some entries => entries.map (fun p => mkMessage p.1 p.2)

/-- Local UI state of the `GroupChat` component (the parts the modelled
handlers read or write).  `skipNextClick` models `skipNextClickRef.current`. -/
structure ChatState where
  messages : List Message
  newMessage : String
  replyingTo : Option Message
  activeReactMenuId : Option String
  activeActionId : Option String
  shouldAutoScroll : Bool
  skipNextClick : Bool
deriving Repr, DecidableEq

/-- `closeAllMenus`: clears both menu ids unless the post-long-press
click-suppression flag is set, in which case it is a no-op. -/
def closeAllMenus (s : ChatState) : ChatState :=
  if s.skipNextClick then s
  else { s with activeActionId := none, activeReactMenuId := none }

/-- The long-press timer firing inside `handlePointerDownOnMessage`: opens the
action bar for the pressed message and arms the click-suppression flag.  It
does not touch `activeReactMenuId`. -/
def longPressFire (msgId : String) (s : ChatState) : ChatState :=
  { s with activeActionId := some msgId, skipNextClick := true }

/-- The 400ms suppression timer expiring: `skipNextClickRef.current = false`. -/
def skipTimerExpire (s : ChatState) : ChatState :=
  { s with skipNextClick := false }

/-- The react button's `onClick`: `setActiveReactMenuId(msg.id);
setActiveActionId(null)`. -/
def openReactionPicker (msgId : String) (s : ChatState) : ChatState :=
  { s with activeReactMenuId := some msgId, activeActionId := none }

/-- A reaction write issued against the store. -/
inductive ReactionWrite where
  /-- `remove(ref(db, messages/{msgId}/reactions/{user}))` -/
  | removeUserReaction (msgId user : String)
  /-- `update(ref(db, messages/{msgId}/reactions), {[user]: emoji})` -/
  | setUserReaction (msgId user emoji : String)
deriving Repr, DecidableEq

/-- `toggleReaction(msgId, emoji)`: looks the message up in the locally cached
list; absent id is an early return (no write, no state change).  Otherwise,
if the current user's cached reaction equals `emoji` the user's reaction entry
is removed, else it is set/overwritten; either way `closeAllMenus()` runs. -/
def toggleReaction (currentUser : String) (s : ChatState) (msgId emoji : String) :
    Option ReactionWrite × ChatState :=
  match s.messages.find? (fun m => m.id == msgId) with
  | none => (none, s)
  | some msg =>
    let currentReaction := lookupKey (msg.reactions.getD []) currentUser
    if currentReaction = some emoji then
      (some (ReactionWrite.removeUserReaction msgId currentUser), closeAllMenus s)
    else
      (some (ReactionWrite.setUserReaction msgId currentUser emoji), closeAllMenus s)

/-- Per-message effect of `remove(messages/{msgId}/reactions/{user})`. -/
def removeReactionOnMsg (msgId user : String) (m : Message) : Message :=
  if m.id == msgId then
    { m with reactions := some (removeKey (m.reactions.getD []) user) }
  else m

/-- Per-message effect of `update(messages/{msgId}/reactions, {[user]: emoji})`. -/
def setReactionOnMsg (msgId user emoji : String) (m : Message) : Message :=
  if m.id == msgId then
    { m with reactions := some (setKey (m.reactions.getD []) user emoji) }
  else m

/-- Effect of a reaction write on the messages subtree, as observed by the
local cache after the subscription echo. -/
def applyReactionWrite (messages : List Message) : Option ReactionWrite → List Message
  | none => messages
  | some (ReactionWrite.removeUserReaction msgId user) =>
      messages.map (removeReactionOnMsg msgId user)
  | some (ReactionWrite.setUserReaction msgId user emoji) =>
      messages.map (setReactionOnMsg msgId user emoji)

/-- One toggle round trip: run the handler, then fold the issued write's echo
back into the local message cache. -/
def toggleReactionStep (currentUser : String) (s : ChatState) (msgId emoji : String) :
    ChatState :=
  let r := toggleReaction currentUser s msgId emoji
  { r.2 with messages := applyReactionWrite r.2.messages r.1 }

/-- The current user's reaction entry on a given message of the cache. -/
def userReactionOn (messages : List Message) (msgId user : String) : Option String :=
  match messages.find? (fun m => m.id == msgId) with
  | none => none
  | some msg => lookupKey (msg.reactions.getD []) user

/-- The truncated reply snapshot text:
`replyingTo.text.substring(0, 120) + (replyingTo.text.length > 120 ? "..." : "")`. -/
def replySnapshotText (text : String) : String :=
  String.mk (text.data.take 120) ++ (if 120 < text.data.length then "..." else "")

/-- Result of a send attempt: the payload pushed to `messages` (if any) and
the local state afterwards. -/
structure SendResult where
  pushed : Option MessageVal
  state : ChatState
deriving Repr, DecidableEq

/-- `sendMessage`: no-op when the draft trims to empty; otherwise pushes a
payload with the current sender, the untrimmed draft text, a client timestamp,
and — when replying — a frozen truncated snapshot of the target; then clears
the draft and reply target, re-engages autoscroll and closes the menus. -/
def sendMessage (currentUser : String) (s : ChatState) (now : Nat) : SendResult :=
  if jsTrimData s.newMessage.data = [] then ⟨none, s⟩
  else
    let payload : MessageVal :=
      { sender := currentUser, text := s.newMessage, timestamp := now,
        replyTo := s.replyingTo.map (fun r => ⟨r.id, r.sender, replySnapshotText r.text⟩) }
    ⟨some payload,
      closeAllMenus { s with newMessage := "", replyingTo := none, shouldAutoScroll := true }⟩

/-- One step of the interaction-menu state machine: the transitions that
write the menu state (`longPressFire` when the long-press timer fires,
`openReactionPicker` from the react button, `closeAllMenus` from the backdrop
click/contextmenu and from the send/reply/pin/react handlers, and the
suppression-timer expiry). -/
inductive MenuStep : ChatState → ChatState → Prop
  | longPress (msgId : String) (s : ChatState) : MenuStep s (longPressFire msgId s)
  | openPicker (msgId : String) (s : ChatState) : MenuStep s (openReactionPicker msgId s)
  | backdrop (s : ChatState) : MenuStep s (closeAllMenus s)
  | skipExpire (s : ChatState) : MenuStep s (skipTimerExpire s)

/-- The initial menu state of the component: no menus open, no suppression. -/
def initialChatState : ChatState :=
  { messages := [], newMessage := "", replyingTo := none,
    activeReactMenuId := none, activeActionId := none,
    shouldAutoScroll := true, skipNextClick := false }

/-- Reachability of the interaction-menu state machine from the initial state. -/
inductive MenuReachable : ChatState → Prop
  | init : MenuReachable initialChatState
  | step {s s' : ChatState} : MenuReachable s → MenuStep s s' → MenuReachable s'

/-- The claimed invariant: no message has both the action bar and the
reaction picker open at once. -/
def menuInvariant (s : ChatState) : Prop :=
  ∀ m : String, ¬(s.activeActionId = some m ∧ s.activeReactMenuId = some m)

end Matutuloy.GroupChat

namespace Matutuloy.AvailabilityHeatmap

/-! ## `AvailabilityHeatmap` (src/components/AvailabilityHeatmap.tsx) -/

/-- The availability subtree: date key (`yyyy-MM-dd`) to per-user map of
booleans (`Record<string, Record<string, boolean>>`). -/
abbrev AvailabilityMap := List (String × List (String × Bool))

/-- An availability write issued against the store. -/
inductive AvailabilityWrite where
  /-- `remove(ref(db, availability/{dateKey}/{user}))` -/
  | removeVote (dateKey user : String)
  /-- `update(ref(db), {[availability/{dateKey}/{user}]: true})` -/
  | setVote (dateKey user : String)
deriving Repr, DecidableEq

/-- `toggleAvailability(date)`: reads the cached day map (`{}` when the date
is absent); if the current user's entry is truthy the entry is removed,
otherwise it is set to `true`. -/
def toggleAvailability (availability : AvailabilityMap) (currentUser dateKey : String) :
    AvailabilityWrite :=
  let dayData := (lookupKey availability dateKey).getD []
  let isFree := (lookupKey dayData currentUser).getD false
  if isFree then AvailabilityWrite.removeVote dateKey currentUser
  else AvailabilityWrite.setVote dateKey currentUser

/-- Apply `f` to the day map stored at date `d` (other dates untouched). -/
def updateDay (d : String) (f : List (String × Bool) → List (String × Bool))
    (availability : AvailabilityMap) : AvailabilityMap :=
  availability.map (fun p => if p.1 = d then (p.1, f p.2) else p)

/-- Effect of an availability write on the availability subtree, as observed
by the local cache after the subscription echo. -/
def applyAvailabilityWrite (availability : AvailabilityMap) :
    AvailabilityWrite → AvailabilityMap
  | AvailabilityWrite.removeVote d u =>
      updateDay d (fun day => removeKey day u) availability
  | AvailabilityWrite.setVote d u =>
      if (lookupKey availability d).isSome then
        updateDay d (fun day => setKey day u true) availability
      else
        availability ++ [(d, [(u, true)])]

/-- One toggle round trip: run the handler and fold the write's echo back. -/
def toggleAvailabilityStep (availability : AvailabilityMap) (currentUser dateKey : String) :
    AvailabilityMap :=
  applyAvailabilityWrite availability (toggleAvailability availability currentUser dateKey)

/-- The user's presence entry for a date in the cached map. -/
def userVote (availability : AvailabilityMap) (dateKey user : String) : Option Bool :=
  lookupKey ((lookupKey availability dateKey).getD []) user

/-- Every stored presence value is `true` — the data-model invariant (the
client only ever writes `true`; toggling off deletes the key). -/
def AllVotesTrue (availability : AvailabilityMap) : Prop :=
  ∀ p ∈ availability, ∀ q ∈ p.2, q.2 = true

/-- The five intensity class strings, in tier order. -/
def intensityClass0 : String := "bg-skin-base text-skin-muted hover:bg-skin-card"

/-- Tier "≤25%". -/
def intensityClass1 : String := "bg-emerald-200 text-emerald-800"

/-- Tier "≤50%". -/
def intensityClass2 : String := "bg-emerald-400 text-white"

/-- Tier "≤75%". -/
def intensityClass3 : String := "bg-emerald-600 text-white"

/-- Tier ">75%". -/
def intensityClass4 : String :=
  "bg-emerald-900 text-white font-bold ring-2 ring-emerald-400 shadow-lg scale-105 z-10"

/-- `getIntensityClass(count)` with `totalUsers` from the component scope:
zero count short-circuits to the base class, otherwise the ratio
`count / totalUsers` is bucketed with inclusive upper bounds at 25%, 50%
and 75%. -/
def getIntensityClass (totalUsers count : Nat) : String :=
  if count = 0 then intensityClass0
  else
    let percentage : ℚ := (count : ℚ) / (totalUsers : ℚ)
    if percentage ≤ 1/4 then intensityClass1
    else if percentage ≤ 1/2 then intensityClass2
    else if percentage ≤ 3/4 then intensityClass3
    else intensityClass4

/-- Numeric tier of an intensity class string, for stating monotonicity. -/
def tierIndex (c : String) : Nat :=
  if c = intensityClass0 then 0
  else if c = intensityClass1 then 1
  else if c = intensityClass2 then 2
  else if c = intensityClass3 then 3
  else 4

/-- The tier of a ratio alone (for nonzero counts). -/
def tierOfRatio (q : ℚ) : Nat :=
  if q ≤ 1/4 then 1 else if q ≤ 1/2 then 2 else if q ≤ 3/4 then 3 else 4

end Matutuloy.AvailabilityHeatmap

namespace Matutuloy.ProfileSelector

/-! ## `ProfileSelector` (src/components/ProfileSelector.tsx) -/

/-- The `mode` state: `'create' | 'enter' | 'onboarding_photo' | null`
(the `none` of the surrounding `Option` models `null`). -/
inductive Mode where
  | create
  | enter
  | onboardingPhoto
deriving Repr, DecidableEq

/-- The component state touched by the PIN-entry handlers, plus two
observables: `authenticated` records a call to `onSelect(name)` and
`submitCount` counts invocations of `submitPin` by the auto-submit effect. -/
structure SelectorState where
  selectedFriend : Option String
  mode : Option Mode
  pinDigits : List String
  focusIndex : Nat
  error : String
  authenticated : Option String
  storedPins : List (String × String)
  submitCount : Nat
deriving Repr, DecidableEq

/-- `handleDigitChange(index, value)`: rejects values whose `Number` coercion
is NaN; otherwise writes the value's last character into the indexed field,
advances focus when the value is non-empty and the field is not the last,
and clears a displayed error. -/
def handleDigitChange (s : SelectorState) (index : Nat) (value : String) : SelectorState :=
  if jsNumberIsNaN value then s
  else
    let newDigits := s.pinDigits.set index (jsLastCodepoint value)
    let s1 := { s with pinDigits := newDigits }
    let s2 := if value ≠ "" ∧ index < 3 then { s1 with focusIndex := index + 1 } else s1
    if s.error ≠ "" then { s2 with error := "" } else s2

/-- `submitPin()`: joins the four digits; in create mode stores the PIN and
authenticates; in enter mode compares the joined string verbatim against the
stored PIN — match authenticates, mismatch sets the error, clears all four
fields and refocuses field 1.  `submitCount` instruments each invocation. -/
def submitPin (s : SelectorState) : SelectorState :=
  let pin := String.join s.pinDigits
  let s' := { s with submitCount := s.submitCount + 1 }
  match s.mode, s.selectedFriend with
  | some Mode.create, some friend =>
      { s' with storedPins := setKey s'.storedPins friend pin,
                authenticated := some friend }
  | some Mode.enter, some friend =>
      if lookupKey s'.storedPins friend = some pin then
        { s' with authenticated := some friend }
      else
        { s' with error := "Incorrect PIN", pinDigits := ["", "", "", ""], focusIndex := 0 }
  | _, _ => s'

/-- The auto-submit effect (`useEffect` with deps `[pinDigits]`): submits as
soon as every field is non-empty and a profile is selected. -/
def effectSubmit (s : SelectorState) : SelectorState :=
  if (s.pinDigits.all (fun d => d != "") && s.selectedFriend.isSome) then submitPin s
  else s

/-- A digit-entry event: the change handler runs, and — whenever it called
`setPinDigits` (i.e. passed the NaN guard) — the auto-submit effect re-runs
on the committed state. -/
def digitEntryStep (s : SelectorState) (index : Nat) (value : String) : SelectorState :=
  if jsNumberIsNaN value then s
  else effectSubmit (handleDigitChange s index value)

/-- Typing into the currently focused field. -/
def typeDigit (s : SelectorState) (value : String) : SelectorState :=
  digitEntryStep s s.focusIndex value

/-- `pasteData.forEach((char, i) => { if (i < 4) newDigits[i] = char })`:
overwrite the leading fields with the pasted characters. -/
def overwriteFirst : List String → List String → List String
  | ds, [] => ds
  | [], _ => []
  | _ :: ds, v :: vs => v :: overwriteFirst ds vs

/-- `handlePaste`: takes the first 4 clipboard characters; if every one
coerces to a number, fills the fields with them in one state update and moves
focus to `min(pasteData.length, 3)`; otherwise nothing happens. -/
def handlePaste (s : SelectorState) (clipboard : String) : SelectorState :=
  let pasteData := (clipboard.data.take 4).map (fun c => String.mk [c])
  if pasteData.all (fun ch => !(jsNumberIsNaN ch)) then
    { s with pinDigits := overwriteFirst s.pinDigits pasteData,
             focusIndex := min pasteData.length 3 }
  else s

/-- A paste event: the paste handler runs, and — whenever it called
`setPinDigits` (the all-numeric branch) — the auto-submit effect re-runs. -/
def pasteStep (s : SelectorState) (clipboard : String) : SelectorState :=
  let pasteData := (clipboard.data.take 4).map (fun c => String.mk [c])
  if pasteData.all (fun ch => !(jsNumberIsNaN ch)) then
    effectSubmit (handlePaste s clipboard)
  else s

/-- The state on arrival at the PIN screen for `friend`: four empty fields,
focus on field 1 (the focus effect), no error, nothing submitted yet. -/
def readyState (friend : String) (m : Mode) (stored : List (String × String)) :
    SelectorState :=
  { selectedFriend := some friend, mode := some m, pinDigits := ["", "", "", ""],
    focusIndex := 0, error := "", authenticated := none, storedPins := stored,
    submitCount := 0 }

end Matutuloy.ProfileSelector

namespace Matutuloy.Examples

open GroupChat

/-- A chat state whose only message carries no reaction from "Ryan". -/
def chatNoReaction : ChatState :=
  { messages := [{ id := "m1", sender := "Teya", text := "tara", timestamp := 5,
                   isPinned := none, replyTo := none, reactions := none }],
    newMessage := "", replyingTo := none, activeReactMenuId := none,
    activeActionId := none, shouldAutoScroll := true, skipNextClick := false }

/-- The message held by `chatNoReaction`. -/
def msgNoReaction : Message :=
  { id := "m1", sender := "Teya", text := "tara", timestamp := 5,
    isPinned := none, replyTo := none, reactions := none }

/-- A chat state whose only message already carries reaction "👍" by "Teya". -/
def chatWithThumb : ChatState :=
  { messages := [{ id := "m1", sender := "Ryan", text := "hi", timestamp := 0,
                   isPinned := none, replyTo := none,
                   reactions := some [("Teya", "👍")] }],
    newMessage := "", replyingTo := none, activeReactMenuId := none,
    activeActionId := none, shouldAutoScroll := true, skipNextClick := false }

/-- A chat state that contains a message "m2" but no message "m1". -/
def chatOnlyM2 : ChatState :=
  { messages := [{ id := "m2", sender := "Glad", text := "uy", timestamp := 9,
                   isPinned := none, replyTo := none, reactions := none }],
    newMessage := "draft", replyingTo := none, activeReactMenuId := some "m2",
    activeActionId := none, shouldAutoScroll := false, skipNextClick := false }

/-- A chat state whose draft is whitespace only. -/
def chatDraftSpaces : ChatState :=
  { messages := [], newMessage := "   ", replyingTo := none,
    activeReactMenuId := none, activeActionId := none,
    shouldAutoScroll := true, skipNextClick := false }

/-- A 200-character reply target. -/
def msgLong : Message :=
  { id := "m1", sender := "Teya", text := String.mk (List.replicate 200 'a'),
    timestamp := 1, isPinned := none, replyTo := none, reactions := none }

/-- A 50-character reply target. -/
def msgShort : Message :=
  { id := "m2", sender := "Glad", text := String.mk (List.replicate 50 'b'),
    timestamp := 2, isPinned := none, replyTo := none, reactions := none }

/-- A chat state replying to the 200-character message with draft "go". -/
def chatReplyLong : ChatState :=
  { messages := [msgLong], newMessage := "go", replyingTo := some msgLong,
    activeReactMenuId := none, activeActionId := none,
    shouldAutoScroll := true, skipNextClick := false }

/-- A chat state replying to the 50-character message with draft "go". -/
def chatReplyShort : ChatState :=
  { messages := [msgShort], newMessage := "go", replyingTo := some msgShort,
    activeReactMenuId := none, activeActionId := none,
    shouldAutoScroll := true, skipNextClick := false }

/-- The menu state reached by opening the reaction picker for "m1" and then
long-pressing "m1": both menus open for the same message. -/
def menusBothOpen : ChatState :=
  { messages := [], newMessage := "", replyingTo := none,
    activeReactMenuId := some "m1", activeActionId := some "m1",
    shouldAutoScroll := true, skipNextClick := true }

/-- A state with the reaction picker open and the suppression flag clear. -/
def menusOpenNoSkip : ChatState :=
  { messages := [], newMessage := "", replyingTo := none,
    activeReactMenuId := some "m2", activeActionId := none,
    shouldAutoScroll := true, skipNextClick := false }

/-- The PIN screen for "Ryan" (stored PIN "4321") with "4321" fully entered. -/
def pinMatchState : ProfileSelector.SelectorState :=
  { selectedFriend := some "Ryan", mode := some ProfileSelector.Mode.enter,
    pinDigits := ["4", "3", "2", "1"], focusIndex := 3, error := "",
    authenticated := none, storedPins := [("Ryan", "4321")], submitCount := 0 }

/-- The PIN screen for "Ryan" (stored PIN "4321") with "1234" fully entered. -/
def pinMismatchState : ProfileSelector.SelectorState :=
  { selectedFriend := some "Ryan", mode := some ProfileSelector.Mode.enter,
    pinDigits := ["1", "2", "3", "4"], focusIndex := 3, error := "",
    authenticated := none, storedPins := [("Ryan", "4321")], submitCount := 0 }

end Matutuloy.Examples

/-! ## Theorems -/

namespace Matutuloy

@[simp] theorem lookupKey_nil (k : String) : lookupKey ([] : List (String × α)) k = none := rfl

@[simp] theorem lookupKey_cons (p : String × α) (rest : List (String × α)) (k : String) :
    lookupKey (p :: rest) k = if p.1 = k then some p.2 else lookupKey rest k := rfl

theorem lookupKey_removeKey_self (l : List (String × α)) (k : String) :
    lookupKey (removeKey l k) k = none := by
  induction l with
  | nil => rfl
  | cons p rest ih =>
    by_cases h : p.1 = k
    · simpa [removeKey, h] using ih
    · simpa [removeKey, h] using ih

theorem lookupKey_append (l₁ l₂ : List (String × α)) (k : String) :
    lookupKey (l₁ ++ l₂) k =
      (match lookupKey l₁ k with
       | some v => some v
       | none => lookupKey l₂ k) := by
  induction l₁ with
  | nil => rfl
  | cons p rest ih =>
    by_cases h : p.1 = k <;> simp [lookupKey, h, ih]

theorem lookupKey_setKey_self (l : List (String × α)) (k : String) (v : α) :
    lookupKey (setKey l k v) k = some v := by
  unfold setKey
  by_cases hmem : (lookupKey l k).isSome
  · simp only [hmem, if_true]
    induction l with
    | nil => simp [lookupKey] at hmem
    | cons p rest ih =>
      by_cases h : p.1 = k
      · simp [lookupKey, h]
      · simp only [lookupKey_cons, h, if_false] at hmem
        simpa [lookupKey, h] using ih hmem
  · have hnone : lookupKey l k = none := by
      cases hk : lookupKey l k with
      | none => rfl
      | some v' => rw [hk] at hmem; simp at hmem
    have hsk : (if (lookupKey l k).isSome then
        l.map (fun p => if p.1 = k then (k, v) else p) else l ++ [(k, v)]) = l ++ [(k, v)] := by
      simp [hnone]
    rw [hsk, lookupKey_append, hnone]
    simp [lookupKey]

end Matutuloy

namespace Matutuloy.GroupChat

theorem closeAllMenus_messages (s : ChatState) : (closeAllMenus s).messages = s.messages := by
  unfold closeAllMenus
  split <;> rfl

theorem find?_map_id_preserved (l : List Message) (f : Message → Message)
    (hf : ∀ m, (f m).id = m.id) (msgId : String) :
    (l.map f).find? (fun m => m.id == msgId) = (l.find? (fun m => m.id == msgId)).map f := by
  induction l with
  | nil => rfl
  | cons a rest ih =>
    simp only [List.map_cons, List.find?]
    rw [hf a]
    cases h : (a.id == msgId) with
    | true => simp
    | false => simpa using ih

theorem setReactionOnMsg_id (msgId user emoji : String) (m : Message) :
    (setReactionOnMsg msgId user emoji m).id = m.id := by
  unfold setReactionOnMsg
  split <;> rfl

theorem removeReactionOnMsg_id (msgId user : String) (m : Message) :
    (removeReactionOnMsg msgId user m).id = m.id := by
  unfold removeReactionOnMsg
  split <;> rfl

theorem toggleReactionStep_messages_set (u msgId emoji : String) (s : ChatState)
    (msg : Message) (hfind : s.messages.find? (fun m => m.id == msgId) = some msg)
    (hne : lookupKey (msg.reactions.getD []) u ≠ some emoji) :
    (toggleReactionStep u s msgId emoji).messages =
      s.messages.map (setReactionOnMsg msgId u emoji) := by
  unfold toggleReactionStep
  simp only [toggleReaction, hfind, hne, if_false]
  dsimp only [applyReactionWrite]
  rw [closeAllMenus_messages]

theorem toggleReactionStep_messages_remove (u msgId emoji : String) (s : ChatState)
    (msg : Message) (hfind : s.messages.find? (fun m => m.id == msgId) = some msg)
    (heq : lookupKey (msg.reactions.getD []) u = some emoji) :
    (toggleReactionStep u s msgId emoji).messages =
      s.messages.map (removeReactionOnMsg msgId u) := by
  unfold toggleReactionStep
  simp only [toggleReaction, hfind, heq, if_true]
  dsimp only [applyReactionWrite]
  rw [closeAllMenus_messages]

end Matutuloy.GroupChat

namespace Matutuloy

open GroupChat

/-- C1: on every snapshot, the local message list is replaced wholesale by the
entry-ordered transform of the keyed map; since the snapshot enumerates
entries in ascending store-key order, the resulting ids are sorted in store-key
order; a `null` (absent/empty) snapshot yields the empty list. -/
theorem C1_messages_resync (entries : List (String × MessageVal))
    (hsorted : entries.Pairwise (fun a b => storeKeyLt a.1 b.1)) :
    messagesOnValue (some entries) = entries.map (fun p => mkMessage p.1 p.2) ∧
    ((messagesOnValue (some entries)).map (fun m => m.id)).Pairwise
      (fun a b => storeKeyLt a b) ∧
    messagesOnValue none = [] := by
  refine ⟨rfl, ?_, rfl⟩
  have hids : (messagesOnValue (some entries)).map (fun m => m.id) =
      entries.map (fun p => p.1) := by
    simp [messagesOnValue, mkMessage, List.map_map, Function.comp]
  rw [hids]
  exact List.Pairwise.map _ (fun a b h => h) hsorted

/-- Witness for C1 at a concrete two-entry snapshot with sorted keys. -/
theorem C1_messages_resync_witness :
    messagesOnValue (some [("-Na1", ⟨"Ryan", "hi", 1, none, none, none⟩),
                           ("-Na2", ⟨"Teya", "yo", 2, none, none, none⟩)]) =
      [mkMessage "-Na1" ⟨"Ryan", "hi", 1, none, none, none⟩,
       mkMessage "-Na2" ⟨"Teya", "yo", 2, none, none, none⟩] ∧
    ((messagesOnValue (some [("-Na1", ⟨"Ryan", "hi", 1, none, none, none⟩),
                             ("-Na2", ⟨"Teya", "yo", 2, none, none, none⟩)])).map
        (fun m => m.id)).Pairwise (fun a b => storeKeyLt a b) ∧
    messagesOnValue none = [] :=
  C1_messages_resync _ (by decide)

/-- C2 (amended): `toggleReaction` removes the user's reaction entry when the
cached reaction equals the emoji and sets/overwrites it otherwise; and when
the user's reaction on the message is initially not the emoji (in particular
absent), toggling the same emoji twice in succession — the cache reflecting
the first write before the second call — leaves the user with no reaction
entry on the message. -/
theorem C2_toggle_reaction (u msgId emoji : String) (s : ChatState) (msg : Message)
    (hfind : s.messages.find? (fun m => m.id == msgId) = some msg) :
    (lookupKey (msg.reactions.getD []) u = some emoji →
      (toggleReaction u s msgId emoji).1 =
        some (ReactionWrite.removeUserReaction msgId u)) ∧
    (lookupKey (msg.reactions.getD []) u ≠ some emoji →
      (toggleReaction u s msgId emoji).1 =
        some (ReactionWrite.setUserReaction msgId u emoji)) ∧
    (lookupKey (msg.reactions.getD []) u ≠ some emoji →
      userReactionOn
        (toggleReactionStep u (toggleReactionStep u s msgId emoji) msgId emoji).messages
        msgId u = none) := by
  have hid0 := List.find?_some hfind
  have hid : (msg.id == msgId) = true := hid0
  refine ⟨?_, ?_, ?_⟩
  · intro heq
    simp only [toggleReaction, hfind, heq, if_true]
  · intro hne
    simp only [toggleReaction, hfind, hne, if_false]
  · intro hne
    have hreactset : (setReactionOnMsg msgId u emoji msg).reactions =
        some (setKey (msg.reactions.getD []) u emoji) := by
      unfold setReactionOnMsg
      rw [hid]
      simp
    have hfind1 : (toggleReactionStep u s msgId emoji).messages.find?
        (fun m => m.id == msgId) = some (setReactionOnMsg msgId u emoji msg) := by
      rw [toggleReactionStep_messages_set u msgId emoji s msg hfind hne,
        find?_map_id_preserved _ _ (setReactionOnMsg_id msgId u emoji) msgId, hfind]
      rfl
    have hlook1 : lookupKey ((setReactionOnMsg msgId u emoji msg).reactions.getD []) u =
        some emoji := by
      rw [hreactset]
      simp only [Option.getD_some]
      exact lookupKey_setKey_self _ u emoji
    have hfind2 : (toggleReactionStep u (toggleReactionStep u s msgId emoji)
        msgId emoji).messages.find? (fun m => m.id == msgId) =
        some (removeReactionOnMsg msgId u (setReactionOnMsg msgId u emoji msg)) := by
      rw [toggleReactionStep_messages_remove u msgId emoji _ _ hfind1 hlook1,
        find?_map_id_preserved _ _ (removeReactionOnMsg_id msgId u) msgId, hfind1]
      rfl
    have hid1 : ((setReactionOnMsg msgId u emoji msg).id == msgId) = true := by
      rw [setReactionOnMsg_id]
      exact hid
    have hreact : (removeReactionOnMsg msgId u (setReactionOnMsg msgId u emoji msg)).reactions =
        some (removeKey ((setReactionOnMsg msgId u emoji msg).reactions.getD []) u) := by
      unfold removeReactionOnMsg
      rw [hid1]
      simp
    unfold userReactionOn
    rw [hfind2]
    dsimp only
    rw [hreact]
    simp only [Option.getD_some]
    exact lookupKey_removeKey_self _ u

/-- Witness for the amended C2: with no initial reaction, toggling "❤️" twice
for "Ryan" on message "m1" ends with no reaction entry. -/
theorem C2_toggle_reaction_witness :
    userReactionOn
      (toggleReactionStep "Ryan" (toggleReactionStep "Ryan" Examples.chatNoReaction
        "m1" "❤️") "m1" "❤️").messages "m1" "Ryan" = none :=
  (C2_toggle_reaction "Ryan" "m1" "❤️" Examples.chatNoReaction Examples.msgNoReaction
    (by rfl)).2.2 (by simp [Examples.msgNoReaction, lookupKey])

/-- Counterexample to C2 as stated: when the user's reaction already equals
the emoji, toggling the same emoji twice removes it and then re-adds it, so a
reaction entry remains — the claim's universally quantified double-toggle
conclusion fails at this input. -/
theorem C2_counterexample :
    userReactionOn
      (toggleReactionStep "Teya" (toggleReactionStep "Teya" Examples.chatWithThumb
        "m1" "👍") "m1" "👍").messages "m1" "Teya" = some "👍" ∧
    some "👍" ≠ (none : Option String) := by
  constructor
  · rfl
  · intro h
    exact Option.noConfusion h

/-- C10: calling `toggleReaction` with a message id absent from the local
cache is a total no-op: no store write is issued and the local state is
returned unchanged. -/
theorem C10_toggle_reaction_absent_noop (u msgId emoji : String) (s : ChatState)
    (habsent : msgId ∉ s.messages.map (fun m => m.id)) :
    toggleReaction u s msgId emoji = (none, s) := by
  have hfind : s.messages.find? (fun m => m.id == msgId) = none := by
    rw [List.find?_eq_none]
    intro m hm
    simp only [beq_eq_false_iff_ne, ne_eq, beq_iff_eq]
    intro hEq
    exact habsent (hEq ▸ List.mem_map_of_mem (fun m => m.id) hm)
  simp only [toggleReaction, hfind]

/-- Witness for C10: toggling a reaction on the unknown id "m1" in a cache
holding only "m2" issues no write and changes nothing. -/
theorem C10_toggle_reaction_absent_noop_witness :
    toggleReaction "Ryan" Examples.chatOnlyM2 "m1" "👍" = (none, Examples.chatOnlyM2) :=
  C10_toggle_reaction_absent_noop "Ryan" "m1" "👍" Examples.chatOnlyM2 (by decide)

end Matutuloy


namespace Matutuloy

theorem lookupKey_mem (l : List (String × α)) (k : String) (v : α)
    (h : lookupKey l k = some v) : (k, v) ∈ l := by
  induction l with
  | nil => simp [lookupKey] at h
  | cons p rest ih =>
    rw [lookupKey_cons] at h
    by_cases hk : p.1 = k
    · rw [if_pos hk] at h
      have hv : p.2 = v := by injection h
      rw [← hk, ← hv]
      exact List.mem_cons_self _ _
    · rw [if_neg hk] at h
      exact List.mem_cons_of_mem p (ih h)

end Matutuloy

namespace Matutuloy.AvailabilityHeatmap

theorem lookupKey_updateDay (avail : AvailabilityMap) (d : String)
    (f : List (String × Bool) → List (String × Bool)) :
    lookupKey (updateDay d f avail) d = (lookupKey avail d).map f := by
  unfold updateDay
  induction avail with
  | nil => rfl
  | cons p rest ih =>
    by_cases hk : p.1 = d
    · simp [lookupKey, hk]
    · simp [lookupKey, hk, ih]

theorem userVote_true_of_isSome (avail : AvailabilityMap) (u d : String)
    (hinv : AllVotesTrue avail) (h : (userVote avail d u).isSome) :
    userVote avail d u = some true := by
  unfold userVote at h ⊢
  cases hd : lookupKey avail d with
  | none =>
    rw [hd] at h
    simp [lookupKey] at h
  | some day =>
    rw [hd] at h
    simp only [Option.getD_some] at h ⊢
    cases hu : lookupKey day u with
    | none =>
      rw [hu] at h
      simp at h
    | some b =>
      have hb : b = true :=
        hinv (d, day) (lookupKey_mem avail d day hd) (u, b) (lookupKey_mem day u b hu)
      rw [hb]

theorem toggleAvailability_set_of_none (avail : AvailabilityMap) (u d : String)
    (hnone : userVote avail d u = none) :
    toggleAvailability avail u d = AvailabilityWrite.setVote d u := by
  unfold userVote at hnone
  simp [toggleAvailability, hnone]

theorem toggleAvailability_remove_of_true (avail : AvailabilityMap) (u d : String)
    (htrue : userVote avail d u = some true) :
    toggleAvailability avail u d = AvailabilityWrite.removeVote d u := by
  unfold userVote at htrue
  simp [toggleAvailability, htrue]

theorem userVote_applyWrite_set (avail : AvailabilityMap) (u d : String) :
    userVote (applyAvailabilityWrite avail (AvailabilityWrite.setVote d u)) d u =
      some true := by
  by_cases hs : (lookupKey avail d).isSome
  · obtain ⟨day, hd⟩ := Option.isSome_iff_exists.mp hs
    have hs' : (lookupKey avail d).isSome = true := hs
    simp only [applyAvailabilityWrite, hs', if_true, userVote]
    rw [lookupKey_updateDay, hd]
    show lookupKey (setKey day u true) u = some true
    exact lookupKey_setKey_self day u true
  · have hd : lookupKey avail d = none := by
      cases hk : lookupKey avail d with
      | none => rfl
      | some day => rw [hk] at hs; simp at hs
    have hs' : (lookupKey avail d).isSome = false := by rw [hd]; rfl
    simp only [applyAvailabilityWrite, hs', Bool.false_eq_true, if_false, userVote]
    rw [lookupKey_append, hd]
    simp [lookupKey]

theorem userVote_applyWrite_remove (avail : AvailabilityMap) (u d : String) :
    userVote (applyAvailabilityWrite avail (AvailabilityWrite.removeVote d u)) d u =
      none := by
  simp only [applyAvailabilityWrite, userVote]
  rw [lookupKey_updateDay]
  cases hd : lookupKey avail d with
  | some day =>
    show lookupKey (removeKey day u) u = none
    exact lookupKey_removeKey_self day u
  | none => rfl

theorem userVote_step_of_none (avail : AvailabilityMap) (u d : String)
    (hnone : userVote avail d u = none) :
    userVote (toggleAvailabilityStep avail u d) d u = some true := by
  unfold toggleAvailabilityStep
  rw [toggleAvailability_set_of_none avail u d hnone]
  exact userVote_applyWrite_set avail u d

theorem userVote_step_of_true (avail : AvailabilityMap) (u d : String)
    (htrue : userVote avail d u = some true) :
    userVote (toggleAvailabilityStep avail u d) d u = none := by
  unfold toggleAvailabilityStep
  rw [toggleAvailability_remove_of_true avail u d htrue]
  exact userVote_applyWrite_remove avail u d

end Matutuloy.AvailabilityHeatmap

namespace Matutuloy

open AvailabilityHeatmap

/-- C3: under the store invariant that presence values are only ever `true`
(the client never writes `false`), the availability toggle deletes the user's
presence entry for the date when it exists and sets it to `true` when it does
not; marking a date available and then unavailable (the cache reflecting the
first write before the second toggle) leaves the user's key absent from the
date's presence map — absent, never set to `false`. -/
theorem C3_toggle_availability (avail : AvailabilityMap) (u d : String)
    (hinv : AllVotesTrue avail) :
    ((userVote avail d u).isSome →
      toggleAvailability avail u d = AvailabilityWrite.removeVote d u) ∧
    (userVote avail d u = none →
      toggleAvailability avail u d = AvailabilityWrite.setVote d u) ∧
    (userVote avail d u = none →
      userVote (toggleAvailabilityStep avail u d) d u = some true ∧
      userVote (toggleAvailabilityStep (toggleAvailabilityStep avail u d) u d) d u
        = none) := by
  refine ⟨?_, ?_, ?_⟩
  · intro hs
    exact toggleAvailability_remove_of_true avail u d
      (userVote_true_of_isSome avail u d hinv hs)
  · intro hnone
    exact toggleAvailability_set_of_none avail u d hnone
  · intro hnone
    have h1 := userVote_step_of_none avail u d hnone
    exact ⟨h1, userVote_step_of_true _ u d h1⟩

/-- Witness for C3: with "Teya" already marked on 2025-01-01, toggling
"Ryan" on and then off leaves "Ryan" absent from that date's map. -/
theorem C3_toggle_availability_witness :
    toggleAvailability [("2025-01-01", [("Teya", true)])] "Ryan" "2025-01-01" =
      AvailabilityWrite.setVote "2025-01-01" "Ryan" ∧
    userVote (toggleAvailabilityStep [("2025-01-01", [("Teya", true)])] "Ryan"
      "2025-01-01") "2025-01-01" "Ryan" = some true ∧
    userVote (toggleAvailabilityStep (toggleAvailabilityStep
      [("2025-01-01", [("Teya", true)])] "Ryan" "2025-01-01") "Ryan" "2025-01-01")
      "2025-01-01" "Ryan" = none := by
  have h := C3_toggle_availability [("2025-01-01", [("Teya", true)])] "Ryan" "2025-01-01"
    (by unfold AllVotesTrue; decide)
  have hnone : userVote [("2025-01-01", [("Teya", true)])] "2025-01-01" "Ryan" = none := by
    decide
  exact ⟨h.2.1 hnone, (h.2.2 hnone).1, (h.2.2 hnone).2⟩

end Matutuloy

namespace Matutuloy.AvailabilityHeatmap

theorem tierOfRatio_mono (q1 q2 : ℚ) (h : q1 ≤ q2) : tierOfRatio q1 ≤ tierOfRatio q2 := by
  unfold tierOfRatio
  split_ifs <;> first | omega | (exfalso; linarith)

theorem getIntensityClass_zero (t : Nat) : getIntensityClass t 0 = intensityClass0 := rfl

theorem tierIndex_getIntensityClass (t c : Nat) (hc : c ≠ 0) :
    tierIndex (getIntensityClass t c) = tierOfRatio ((c : ℚ) / (t : ℚ)) := by
  unfold getIntensityClass tierOfRatio
  rw [if_neg hc]
  dsimp only
  split_ifs <;> decide

theorem getIntensityClass_mem (t c : Nat) :
    getIntensityClass t c ∈
      [intensityClass0, intensityClass1, intensityClass2, intensityClass3,
       intensityClass4] := by
  unfold getIntensityClass
  dsimp only
  split_ifs <;> simp

theorem getIntensityClass_mono (t c1 c2 : Nat) (h : c1 ≤ c2) :
    tierIndex (getIntensityClass t c1) ≤ tierIndex (getIntensityClass t c2) := by
  by_cases h1 : c1 = 0
  · subst h1
    rw [getIntensityClass_zero]
    have h0 : tierIndex intensityClass0 = 0 := by decide
    rw [h0]
    exact Nat.zero_le _
  · have h2 : c2 ≠ 0 := by omega
    rw [tierIndex_getIntensityClass t c1 h1, tierIndex_getIntensityClass t c2 h2]
    apply tierOfRatio_mono
    rcases Nat.eq_zero_or_pos t with ht | ht
    · subst ht
      simp
    · have htQ : (0 : ℚ) < (t : ℚ) := by exact_mod_cast ht
      have hcQ : (c1 : ℚ) ≤ (c2 : ℚ) := by exact_mod_cast h
      exact (div_le_div_iff_of_pos_right htQ).mpr hcQ

end Matutuloy.AvailabilityHeatmap

namespace Matutuloy

open AvailabilityHeatmap

/-- C4: the intensity classification is a pure total function: count 0 gives
the zero tier; otherwise the tier is a function of the ratio `count/total`
alone, bucketed with inclusive upper bounds at 25%, 50% and 75% into exactly
five classes; the tier is monotone in the ratio (hence in the count at fixed
roster size); and `getIntensityClass` at count=2,total=8 (ratio 0.25) gives
the "≤25%" tier while count=8,total=8 (ratio 1.0) gives the ">75%" tier. -/
theorem C4_intensity_classification :
    (∀ t, getIntensityClass t 0 = intensityClass0) ∧
    (∀ t c, c ≠ 0 →
      tierIndex (getIntensityClass t c) = tierOfRatio ((c : ℚ) / (t : ℚ))) ∧
    (∀ t c : Nat, c ≠ 0 →
      (((c : ℚ) / (t : ℚ)) ≤ 1/4 → getIntensityClass t c = intensityClass1) ∧
      (((c : ℚ) / (t : ℚ)) ≤ 1/2 → ¬(((c : ℚ) / (t : ℚ)) ≤ 1/4) →
        getIntensityClass t c = intensityClass2) ∧
      (((c : ℚ) / (t : ℚ)) ≤ 3/4 → ¬(((c : ℚ) / (t : ℚ)) ≤ 1/2) →
        getIntensityClass t c = intensityClass3) ∧
      (¬(((c : ℚ) / (t : ℚ)) ≤ 3/4) → getIntensityClass t c = intensityClass4)) ∧
    (∀ t c, getIntensityClass t c ∈
      [intensityClass0, intensityClass1, intensityClass2, intensityClass3,
       intensityClass4]) ∧
    (∀ q1 q2 : ℚ, q1 ≤ q2 → tierOfRatio q1 ≤ tierOfRatio q2) ∧
    (∀ t c1 c2 : Nat, c1 ≤ c2 →
      tierIndex (getIntensityClass t c1) ≤ tierIndex (getIntensityClass t c2)) ∧
    getIntensityClass 8 2 = intensityClass1 ∧
    getIntensityClass 8 8 = intensityClass4 := by
  refine ⟨fun t => getIntensityClass_zero t,
          fun t c hc => tierIndex_getIntensityClass t c hc,
          ?_,
          fun t c => getIntensityClass_mem t c,
          fun q1 q2 h => tierOfRatio_mono q1 q2 h,
          fun t c1 c2 h => getIntensityClass_mono t c1 c2 h,
          ?_, ?_⟩
  · intro t c hc
    unfold getIntensityClass
    rw [if_neg hc]
    dsimp only
    refine ⟨?_, ?_, ?_, ?_⟩
    · intro h14
      rw [if_pos h14]
    · intro h12 h14
      rw [if_neg h14, if_pos h12]
    · intro h34 h12
      have h14 : ¬(((c : ℚ) / (t : ℚ)) ≤ 1/4) := by
        intro h
        exact h12 (le_trans h (by norm_num))
      rw [if_neg h14, if_neg h12, if_pos h34]
    · intro h34
      have h12 : ¬(((c : ℚ) / (t : ℚ)) ≤ 1/2) := by
        intro h
        exact h34 (le_trans h (by norm_num))
      have h14 : ¬(((c : ℚ) / (t : ℚ)) ≤ 1/4) := by
        intro h
        exact h12 (le_trans h (by norm_num))
      rw [if_neg h14, if_neg h12, if_neg h34]
  · norm_num [getIntensityClass]
  · norm_num [getIntensityClass, intensityClass4]

/-- Witness for C4: count=3,total=9 (ratio 1/3) lands in the "≤50%" tier, and
the tier at count 2 is at most the tier at count 6 for total 8. -/
theorem C4_intensity_classification_witness :
    getIntensityClass 9 3 = intensityClass2 ∧
    tierIndex (getIntensityClass 8 2) ≤ tierIndex (getIntensityClass 8 6) := by
  constructor
  · exact ((C4_intensity_classification.2.2.1 9 3 (by norm_num)).2.1
      (by norm_num) (by norm_num))
  · exact C4_intensity_classification.2.2.2.2.2.1 8 2 6 (by norm_num)

end Matutuloy

namespace Matutuloy

theorem isDigit_not_jsWhitespace (c : Char) (h : c.isDigit = true) :
    jsWhitespaceChar c = false := by
  cases hw : jsWhitespaceChar c with
  | false => rfl
  | true =>
    exfalso
    unfold jsWhitespaceChar at hw
    simp only [Bool.or_eq_true, beq_iff_eq] at hw
    rcases hw with ((((rfl | rfl) | rfl) | rfl) | rfl) | rfl <;> exact absurd h (by decide)

theorem jsNumberIsNaN_digit_singleton (c : Char) (h : c.isDigit = true) :
    jsNumberIsNaN (String.mk [c]) = false := by
  have hw := isDigit_not_jsWhitespace c h
  simp [jsNumberIsNaN, jsTrimData, List.dropWhile, hw, h]

theorem mk_singleton_ne_empty (c : Char) : String.mk [c] ≠ "" := by
  intro he
  have hd : ([c] : List Char) = [] := congrArg String.data he
  simp at hd

theorem jsLastCodepoint_singleton (c : Char) :
    jsLastCodepoint (String.mk [c]) = String.mk [c] := rfl

theorem mk_singleton_bne_empty (c : Char) : (String.mk [c] != "") = true := by
  simp only [bne_iff_ne, ne_eq]
  exact mk_singleton_ne_empty c

end Matutuloy

namespace Matutuloy.ProfileSelector

theorem submitPin_submitCount (s : SelectorState) :
    (submitPin s).submitCount = s.submitCount + 1 := by
  unfold submitPin
  cases hm : s.mode with
  | none => rfl
  | some m =>
    cases m <;> cases hf : s.selectedFriend <;>
      first
      | rfl
      | (dsimp only; split <;> rfl)

end Matutuloy.ProfileSelector

namespace Matutuloy

open ProfileSelector

/-- C5: entering four digit characters one at a time from the empty PIN
screen advances focus left-to-right (1, 2, 3) and auto-submits exactly once —
the submit count stays 0 after the first three entries and becomes 1 at the
moment the 4th field becomes non-empty; pasting the same four digits as one
clipboard string fills all four fields in one operation, moves focus to the
last field, and triggers the same single auto-submit. -/
theorem C5_pin_entry_and_paste (friend : String) (m : Mode)
    (stored : List (String × String)) (d1 d2 d3 d4 : Char)
    (h1 : d1.isDigit = true) (h2 : d2.isDigit = true) (h3 : d3.isDigit = true)
    (h4 : d4.isDigit = true) :
    ((typeDigit (readyState friend m stored) (String.mk [d1])).focusIndex = 1 ∧
     (typeDigit (readyState friend m stored) (String.mk [d1])).submitCount = 0) ∧
    ((typeDigit (typeDigit (readyState friend m stored) (String.mk [d1]))
        (String.mk [d2])).focusIndex = 2 ∧
     (typeDigit (typeDigit (readyState friend m stored) (String.mk [d1]))
        (String.mk [d2])).submitCount = 0) ∧
    ((typeDigit (typeDigit (typeDigit (readyState friend m stored) (String.mk [d1]))
        (String.mk [d2])) (String.mk [d3])).focusIndex = 3 ∧
     (typeDigit (typeDigit (typeDigit (readyState friend m stored) (String.mk [d1]))
        (String.mk [d2])) (String.mk [d3])).submitCount = 0) ∧
    ((handleDigitChange (typeDigit (typeDigit (typeDigit (readyState friend m stored)
        (String.mk [d1])) (String.mk [d2])) (String.mk [d3])) 3
        (String.mk [d4])).pinDigits =
      [String.mk [d1], String.mk [d2], String.mk [d3], String.mk [d4]] ∧
     (typeDigit (typeDigit (typeDigit (typeDigit (readyState friend m stored)
        (String.mk [d1])) (String.mk [d2])) (String.mk [d3]))
        (String.mk [d4])).submitCount = 1) ∧
    ((handlePaste (readyState friend m stored)
        (String.mk [d1, d2, d3, d4])).pinDigits =
      [String.mk [d1], String.mk [d2], String.mk [d3], String.mk [d4]] ∧
     (handlePaste (readyState friend m stored)
        (String.mk [d1, d2, d3, d4])).focusIndex = 3 ∧
     (pasteStep (readyState friend m stored)
        (String.mk [d1, d2, d3, d4])).submitCount = 1) := by
  have hn1 := jsNumberIsNaN_digit_singleton d1 h1
  have hn2 := jsNumberIsNaN_digit_singleton d2 h2
  have hn3 := jsNumberIsNaN_digit_singleton d3 h3
  have hn4 := jsNumberIsNaN_digit_singleton d4 h4
  have he1 := mk_singleton_ne_empty d1
  have he2 := mk_singleton_ne_empty d2
  have he3 := mk_singleton_ne_empty d3
  have hb1 := mk_singleton_bne_empty d1
  have hb2 := mk_singleton_bne_empty d2
  have hb3 := mk_singleton_bne_empty d3
  have hb4 := mk_singleton_bne_empty d4
  have hs1 : typeDigit (readyState friend m stored) (String.mk [d1]) =
      { selectedFriend := some friend, mode := some m,
        pinDigits := [String.mk [d1], "", "", ""], focusIndex := 1, error := "",
        authenticated := none, storedPins := stored, submitCount := 0 } := by
    simp [typeDigit, digitEntryStep, handleDigitChange, effectSubmit, readyState,
          hn1, he1, jsLastCodepoint_singleton]
  have hs2 : typeDigit (typeDigit (readyState friend m stored) (String.mk [d1]))
      (String.mk [d2]) =
      { selectedFriend := some friend, mode := some m,
        pinDigits := [String.mk [d1], String.mk [d2], "", ""], focusIndex := 2,
        error := "", authenticated := none, storedPins := stored,
        submitCount := 0 } := by
    rw [hs1]
    simp [typeDigit, digitEntryStep, handleDigitChange, effectSubmit,
          hn2, he2, jsLastCodepoint_singleton]
  have hs3 : typeDigit (typeDigit (typeDigit (readyState friend m stored)
      (String.mk [d1])) (String.mk [d2])) (String.mk [d3]) =
      { selectedFriend := some friend, mode := some m,
        pinDigits := [String.mk [d1], String.mk [d2], String.mk [d3], ""],
        focusIndex := 3, error := "", authenticated := none, storedPins := stored,
        submitCount := 0 } := by
    rw [hs2]
    simp [typeDigit, digitEntryStep, handleDigitChange, effectSubmit,
          hn3, he3, jsLastCodepoint_singleton]
  have hs4pre : handleDigitChange (typeDigit (typeDigit (typeDigit
      (readyState friend m stored) (String.mk [d1])) (String.mk [d2]))
      (String.mk [d3])) 3 (String.mk [d4]) =
      { selectedFriend := some friend, mode := some m,
        pinDigits := [String.mk [d1], String.mk [d2], String.mk [d3], String.mk [d4]],
        focusIndex := 3, error := "", authenticated := none, storedPins := stored,
        submitCount := 0 } := by
    rw [hs3]
    simp [handleDigitChange, hn4, jsLastCodepoint_singleton]
  have hs4 : typeDigit (typeDigit (typeDigit (typeDigit
      (readyState friend m stored) (String.mk [d1])) (String.mk [d2]))
      (String.mk [d3])) (String.mk [d4]) =
      submitPin
      { selectedFriend := some friend, mode := some m,
        pinDigits := [String.mk [d1], String.mk [d2], String.mk [d3], String.mk [d4]],
        focusIndex := 3, error := "", authenticated := none, storedPins := stored,
        submitCount := 0 } := by
    have hfi : (typeDigit (typeDigit (typeDigit (readyState friend m stored)
        (String.mk [d1])) (String.mk [d2])) (String.mk [d3])).focusIndex = 3 := by
      rw [hs3]
    rw [typeDigit, hfi, digitEntryStep,
        if_neg (by rw [hn4]; exact Bool.false_ne_true), hs4pre, effectSubmit]
    rw [if_pos ?hcond]
    case hcond =>
      simp [hb1, hb2, hb3, hb4]
  refine ⟨⟨?_, ?_⟩, ⟨?_, ?_⟩, ⟨?_, ?_⟩, ⟨?_, ?_⟩, ?_, ?_, ?_⟩
  · rw [hs1]
  · rw [hs1]
  · rw [hs2]
  · rw [hs2]
  · rw [hs3]
  · rw [hs3]
  · rw [hs4pre]
  · rw [hs4, submitPin_submitCount]
  · simp [handlePaste, overwriteFirst, readyState, hn1, hn2, hn3, hn4]
  · simp [handlePaste, readyState, hn1, hn2, hn3, hn4]
  · have hp : handlePaste (readyState friend m stored) (String.mk [d1, d2, d3, d4]) =
        { selectedFriend := some friend, mode := some m,
          pinDigits := [String.mk [d1], String.mk [d2], String.mk [d3], String.mk [d4]],
          focusIndex := 3, error := "", authenticated := none, storedPins := stored,
          submitCount := 0 } := by
      simp [handlePaste, overwriteFirst, readyState, hn1, hn2, hn3, hn4]
    rw [pasteStep]
    rw [if_pos ?hpaste]
    case hpaste =>
      simp [hn1, hn2, hn3, hn4]
    rw [effectSubmit, hp, if_pos ?hpcond]
    case hpcond =>
      simp [hb1, hb2, hb3, hb4]
    rw [submitPin_submitCount]

end Matutuloy

namespace Matutuloy

open ProfileSelector

/-- Witness for C5: typing 4,3,2,1 for "Ryan" submits exactly once, as does
pasting "4321". -/
theorem C5_pin_entry_and_paste_witness :
    (typeDigit (typeDigit (typeDigit (typeDigit (readyState "Ryan" Mode.enter
      [("Ryan", "4321")]) (String.mk ['4'])) (String.mk ['3'])) (String.mk ['2']))
      (String.mk ['1'])).submitCount = 1 ∧
    (pasteStep (readyState "Ryan" Mode.enter [("Ryan", "4321")])
      (String.mk ['4', '3', '2', '1'])).submitCount = 1 :=
  ⟨(C5_pin_entry_and_paste "Ryan" Mode.enter [("Ryan", "4321")] '4' '3' '2' '1'
      (by decide) (by decide) (by decide) (by decide)).2.2.2.1.2,
   (C5_pin_entry_and_paste "Ryan" Mode.enter [("Ryan", "4321")] '4' '3' '2' '1'
      (by decide) (by decide) (by decide) (by decide)).2.2.2.2.2.2⟩

/-- C6: in enter mode the joined digits are compared verbatim (string
equality, no hashing) against the stored PIN: a match authenticates the
selected profile; a mismatch sets the "Incorrect PIN" error, clears all four
fields, refocuses field 1 and does not authenticate; and any subsequent
accepted keystroke clears a displayed error. -/
theorem C6_submit_pin_enter (friend : String) (s : SelectorState)
    (hmode : s.mode = some Mode.enter) (hsel : s.selectedFriend = some friend) :
    (lookupKey s.storedPins friend = some (String.join s.pinDigits) →
      (submitPin s).authenticated = some friend) ∧
    (lookupKey s.storedPins friend ≠ some (String.join s.pinDigits) →
      (submitPin s).error = "Incorrect PIN" ∧
      (submitPin s).pinDigits = ["", "", "", ""] ∧
      (submitPin s).focusIndex = 0 ∧
      (submitPin s).authenticated = s.authenticated) ∧
    (∀ (s' : SelectorState) (i : Nat) (value : String),
      jsNumberIsNaN value = false →
      (handleDigitChange s' i value).error = "") := by
  refine ⟨?_, ?_, ?_⟩
  · intro hpin
    unfold submitPin
    rw [hmode, hsel]
    dsimp only
    rw [if_pos hpin]
  · intro hpin
    unfold submitPin
    rw [hmode, hsel]
    dsimp only
    rw [if_neg hpin]
    exact ⟨rfl, rfl, rfl, rfl⟩
  · intro s' i value hnan
    unfold handleDigitChange
    rw [if_neg (by rw [hnan]; exact Bool.false_ne_true)]
    dsimp only
    by_cases herr : s'.error ≠ ""
    · rw [if_pos herr]
    · rw [if_neg herr]
      push_neg at herr
      split <;> exact herr

/-- Witness for C6: with PIN "4321" stored for "Ryan", submitting "4321"
authenticates and submitting "1234" errors, clears the fields and refocuses
field 1. -/
theorem C6_submit_pin_enter_witness :
    (submitPin Examples.pinMatchState).authenticated = some "Ryan" ∧
    (submitPin Examples.pinMismatchState).error = "Incorrect PIN" ∧
    (submitPin Examples.pinMismatchState).pinDigits = ["", "", "", ""] ∧
    (submitPin Examples.pinMismatchState).focusIndex = 0 := by
  have hmatch := C6_submit_pin_enter "Ryan" Examples.pinMatchState rfl rfl
  have hmis := C6_submit_pin_enter "Ryan" Examples.pinMismatchState rfl rfl
  have h1 := hmatch.1 (by decide)
  have h2 := hmis.2.1 (by decide)
  exact ⟨h1, h2.1, h2.2.1, h2.2.2.1⟩

end Matutuloy

namespace Matutuloy

open GroupChat ProfileSelector

/-- C7 (amended): a draft whose trimmed form is empty makes `sendMessage` a
total no-op (no push, state returned unchanged); and a PIN entry value whose
JS `Number` coercion is NaN — every non-numeric character except whitespace —
leaves the selector state unchanged.  (Whitespace characters coerce to `0`
and are accepted into the field; see the counterexample.) -/
theorem C7_validation_silent (currentUser : String) (s : ChatState) (now : Nat)
    (sel : SelectorState) (i : Nat) (value : String) :
    (jsTrimData s.newMessage.data = [] →
      sendMessage currentUser s now = ⟨none, s⟩) ∧
    (jsNumberIsNaN value = true → handleDigitChange sel i value = sel) := by
  constructor
  · intro htrim
    unfold sendMessage
    rw [if_pos htrim]
  · intro hnan
    unfold handleDigitChange
    rw [if_pos hnan]

/-- Witness for the amended C7: a whitespace-only draft is not sent and the
letter "a" is rejected by the digit handler. -/
theorem C7_validation_silent_witness :
    sendMessage "Ryan" Examples.chatDraftSpaces 5 = ⟨none, Examples.chatDraftSpaces⟩ ∧
    handleDigitChange (readyState "Ryan" Mode.enter [("Ryan", "4321")]) 0 "a" =
      readyState "Ryan" Mode.enter [("Ryan", "4321")] :=
  ⟨(C7_validation_silent "Ryan" Examples.chatDraftSpaces 5
      (readyState "Ryan" Mode.enter [("Ryan", "4321")]) 0 "a").1 (by decide),
   (C7_validation_silent "Ryan" Examples.chatDraftSpaces 5
      (readyState "Ryan" Mode.enter [("Ryan", "4321")]) 0 "a").2 (by decide)⟩

/-- Counterexample to C7 as stated: the space character is non-numeric, yet
`handleDigitChange` accepts it (JS `Number(' ')` is `0`, not NaN) and writes
it into the first field — the digit fields do change. -/
theorem C7_counterexample :
    (handleDigitChange (readyState "Ryan" Mode.enter [("Ryan", "4321")]) 0
        " ").pinDigits = [" ", "", "", ""] ∧
    (' ').isDigit = false ∧
    (handleDigitChange (readyState "Ryan" Mode.enter [("Ryan", "4321")]) 0
        " ").pinDigits ≠
      (readyState "Ryan" Mode.enter [("Ryan", "4321")]).pinDigits := by
  exact ⟨rfl, rfl, by decide⟩

/-- C8: when a reply target is set and the draft survives trimming, the
pushed payload's `replyTo.text` is a frozen snapshot computed at send time:
the target text truncated to its first 120 characters plus an ellipsis
marker when it exceeds 120 characters, and the unmodified text with no
ellipsis otherwise. -/
theorem C8_reply_snapshot (currentUser : String) (s : ChatState) (now : Nat)
    (r : Message) (hreply : s.replyingTo = some r)
    (hne : ¬(jsTrimData s.newMessage.data = [])) :
    (sendMessage currentUser s now).pushed = some
      { sender := currentUser, text := s.newMessage, timestamp := now,
        isPinned := none,
        replyTo := some ⟨r.id, r.sender, replySnapshotText r.text⟩,
        reactions := none } ∧
    (120 < r.text.data.length →
      replySnapshotText r.text = String.mk (r.text.data.take 120) ++ "...") ∧
    (r.text.data.length ≤ 120 → replySnapshotText r.text = r.text) := by
  refine ⟨?_, ?_, ?_⟩
  · unfold sendMessage
    rw [if_neg hne]
    dsimp only
    rw [hreply]
    rfl
  · intro h120
    unfold replySnapshotText
    rw [if_pos h120]
  · intro hle
    unfold replySnapshotText
    rw [if_neg (by omega), List.take_of_length_le hle]
    show r.text ++ "" = r.text
    simp

set_option maxRecDepth 10000 in
/-- Witness for C8: a 200-character target is truncated to 120 characters
plus "...", and a 50-character target is stored unmodified. -/
theorem C8_reply_snapshot_witness :
    replySnapshotText Examples.msgLong.text =
      String.mk (List.replicate 120 'a') ++ "..." ∧
    replySnapshotText Examples.msgShort.text = Examples.msgShort.text := by
  constructor
  · rw [(C8_reply_snapshot "Ryan" Examples.chatReplyLong 7 Examples.msgLong rfl
      (by decide)).2.1 (by decide)]
    decide
  · exact (C8_reply_snapshot "Ryan" Examples.chatReplyShort 7 Examples.msgShort rfl
      (by decide)).2.2 (by decide)

/-- Counterexample to C9 as stated: from the initial state, opening the
reaction picker for "m1" and then long-pressing "m1" reaches a state in
which both the action bar and the reaction picker are open for the same
message — the long-press open does not close the prior open picker, so the
per-message exclusivity invariant fails on a reachable state. -/
theorem C9_counterexample :
    MenuReachable Examples.menusBothOpen ∧ ¬ menuInvariant Examples.menusBothOpen := by
  constructor
  · have h1 : MenuReachable (openReactionPicker "m1" initialChatState) :=
      MenuReachable.step MenuReachable.init (MenuStep.openPicker "m1" _)
    have h2 : MenuReachable (longPressFire "m1"
        (openReactionPicker "m1" initialChatState)) :=
      MenuReachable.step h1 (MenuStep.longPress "m1" _)
    exact h2
  · intro hinv
    exact hinv "m1" ⟨rfl, rfl⟩

/-- C9 (amended): opening the reaction picker closes the action bar (so after
the react-button handler at most the picker is open); a backdrop
click/contextmenu closes both menus whenever the post-long-press
click-suppression flag is clear, and is a no-op during the suppression
window; but a long-press action-bar open leaves a previously open reaction
picker open (see the counterexample). -/
theorem C9_menu_state (s : ChatState) (mId : String) :
    (openReactionPicker mId s).activeReactMenuId = some mId ∧
    (openReactionPicker mId s).activeActionId = none ∧
    (s.skipNextClick = false →
      (closeAllMenus s).activeActionId = none ∧
      (closeAllMenus s).activeReactMenuId = none) ∧
    (s.skipNextClick = true → closeAllMenus s = s) := by
  refine ⟨rfl, rfl, ?_, ?_⟩
  · intro h
    unfold closeAllMenus
    rw [h, if_neg Bool.false_ne_true]
    exact ⟨rfl, rfl⟩
  · intro h
    unfold closeAllMenus
    rw [h, if_pos rfl]

/-- Witness for C9 (amended): opening the picker for "m1" clears the action
bar, and a backdrop click with the suppression flag clear closes the open
picker. -/
theorem C9_menu_state_witness :
    (openReactionPicker "m1" Examples.menusOpenNoSkip).activeActionId = none ∧
    (closeAllMenus Examples.menusOpenNoSkip).activeReactMenuId = none :=
  ⟨(C9_menu_state Examples.menusOpenNoSkip "m1").2.1,
   ((C9_menu_state Examples.menusOpenNoSkip "m1").2.2.1 rfl).2⟩

end Matutuloy
